import Mathlib

/-!
Verification of the rabbitflow topology provisioner and stage router.

The broker-facing operations (pika channel methods) are modelled as explicit
state-passing functions over a `Broker` value together with an event trace.
The broker's observable behavior follows the external-interface contract of
the specification (declare returns OK / NotFound / Conflict, bind returns
OK / AlreadyBound); error outcomes surface as `ChannelClosedByBroker`
exceptions whose reply text may or may not contain the substring NOT_FOUND,
exactly the discrimination the client code performs.  A fault schedule allows
injecting broker-initiated channel closures or connection losses at any
operation, modelling transient failures.

The client-side definitions (`verify_exchange`, `ExchangePair.setup`,
`create_binding`, `TopicQueuePair.setup`, the `register_*` provisioning
sequences and `RabbitFlow.run`) are translated from
src/rabbitflow/core.py and src/rabbitflow/app.py.  The per-message delivery
handler is not present in the provided sources and is modelled from the
specification where noted.
-/

/-- The character list `needle` occurs at the head of `hay`. -/
def leadMatch : List Char → List Char → Bool
  | [], _ => true
  | _ :: _, [] => false
  | c :: cs, d :: ds => c == d && leadMatch cs ds

/-- The character list `needle` occurs somewhere in `hay`. -/
def occursIn (needle : List Char) : List Char → Bool
  | [] => needle.isEmpty
  | d :: ds => leadMatch needle (d :: ds) || occursIn needle ds

/-- True when `needle` occurs as a substring of `hay` (models Python's
`needle in hay`). -/
def strContains (hay needle : String) : Bool :=
  occursIn needle.data hay.data

/-- Broker-side durable state: exchanges (name, kind, durable),
exchange-to-exchange bindings (source, destination, routing key), queues and
queue-to-exchange bindings (queue, exchange, routing key). -/
structure Broker where
  exchanges : List (String × String × Bool) := []
  ebinds : List (String × String × String) := []
  queues : List String := []
  qbinds : List (String × String × String) := []
deriving DecidableEq, Repr

/-- Look up an exchange by name, returning its kind and durability. -/
def lookupExch : List (String × String × Bool) → String → Option (String × Bool)
  | [], _ => none
  | e :: es, n => if e.1 = n then some e.2 else lookupExch es n

/-- One AMQP channel operation issued by the client, as recorded in the
trace.  Passive declarations are check-only; non-passive ones create. -/
inductive Event where
  | declareExchange (name ty : String) (durable passive : Bool)
  | bindExchange (source dest key : String)
  | declareQueue (name : String) (durable passive : Bool)
  | bindQueue (queue exchange key : String)
  | reopenChannel
deriving DecidableEq, Repr

/-- Exceptions raised by the pika layer: a broker-initiated channel closure
(carrying the broker's reply text), or a connection-level failure. -/
inductive PikaErr where
  | channelClosedByBroker (reply : String)
  | streamLost (reply : String)
deriving DecidableEq, Repr

/-- Machine state threaded through every operation: the broker state, whether
the current channel handle is open, the trace of issued operations, and the
schedule of injected faults (one entry consumed per broker operation; `none`
means the operation behaves normally). -/
structure MState where
  broker : Broker
  chanOpen : Bool := true
  events : List Event := []
  faults : List (Option PikaErr) := []
deriving DecidableEq, Repr

def initState (b : Broker) : MState := { broker := b }

def popFault (s : MState) : Option PikaErr × MState :=
  match s.faults with
  | [] => (none, s)
  | f :: fs => (f, { s with faults := fs })

def emit (e : Event) (s : MState) : MState :=
  { s with events := s.events ++ [e] }

def closeChan (s : MState) : MState := { s with chanOpen := false }

/-- pika `channel.exchange_declare`.  Existing exchange with matching kind:
OK.  Existing with mismatched kind: the broker closes the channel with a
PRECONDITION_FAILED reply.  Missing and passive: closure with a NOT_FOUND
reply.  Missing and non-passive: the exchange is created. -/
def exchange_declare (name ty : String) (durable passive : Bool) (s : MState) :
    Except PikaErr Unit × MState :=
  let (f, s) := popFault s
  let s := emit (.declareExchange name ty durable passive) s
  match f with
  | some e => (.error e, closeChan s)
  | none =>
    match lookupExch s.broker.exchanges name with
    | some (ty0, _) =>
        if ty0 = ty then (.ok (), s)
        else (.error (.channelClosedByBroker "PRECONDITION_FAILED - inequivalent arg"),
              closeChan s)
    | none =>
        if passive then
          (.error (.channelClosedByBroker "NOT_FOUND - no exchange"), closeChan s)
        else
          (.ok (), { s with broker :=
            { s.broker with exchanges := (name, ty, durable) :: s.broker.exchanges } })

/-- pika `channel.exchange_bind`.  Per the broker interface of the spec, an
already-existing binding is reported as a closure; otherwise the binding is
created. -/
def exchange_bind (source dest key : String) (s : MState) :
    Except PikaErr Unit × MState :=
  let (f, s) := popFault s
  let s := emit (.bindExchange source dest key) s
  match f with
  | some e => (.error e, closeChan s)
  | none =>
    if (source, dest, key) ∈ s.broker.ebinds then
      (.error (.channelClosedByBroker "binding already exists"), closeChan s)
    else
      (.ok (), { s with broker :=
        { s.broker with ebinds := (source, dest, key) :: s.broker.ebinds } })

/-- pika `channel.queue_declare`. -/
def queue_declare (name : String) (durable passive : Bool) (s : MState) :
    Except PikaErr Unit × MState :=
  let (f, s) := popFault s
  let s := emit (.declareQueue name durable passive) s
  match f with
  | some e => (.error e, closeChan s)
  | none =>
    if name ∈ s.broker.queues then (.ok (), s)
    else if passive then
      (.error (.channelClosedByBroker "NOT_FOUND - no queue"), closeChan s)
    else
      (.ok (), { s with broker := { s.broker with queues := name :: s.broker.queues } })

/-- pika `channel.queue_bind`. -/
def queue_bind (queue exchange key : String) (s : MState) :
    Except PikaErr Unit × MState :=
  let (f, s) := popFault s
  let s := emit (.bindQueue queue exchange key) s
  match f with
  | some e => (.error e, closeChan s)
  | none =>
    if (queue, exchange, key) ∈ s.broker.qbinds then
      (.error (.channelClosedByBroker "binding already exists"), closeChan s)
    else
      (.ok (), { s with broker :=
        { s.broker with qbinds := (queue, exchange, key) :: s.broker.qbinds } })

/-- Python-level exceptions of core.py: `ValueError`, the generic wrapping
`Exception` raised by the setup methods, or a propagated pika exception. -/
inductive PyErr where
  | valueError (msg : String)
  | wrapped (msg : String)
  | pika (e : PikaErr)
deriving DecidableEq, Repr

def PikaErr.text : PikaErr → String
  | .channelClosedByBroker r => r
  | .streamLost r => r

def PyErr.text : PyErr → String
  | .valueError m => m
  | .wrapped m => m
  | .pika e => e.text

/-- core.py `ExchangeType`. -/
inductive ExchangeType where
  | fanout
  | topic
deriving DecidableEq, Repr

def ExchangeType.value : ExchangeType → String
  | .fanout => "fanout"
  | .topic => "topic"

/-- core.py `ExchangeConfig`. -/
structure ExchangeConfig where
  name : String
  type : ExchangeType
  durable : Bool := true
deriving DecidableEq, Repr

/-- core.py `ExchangePair.__init__`: source and destination exchange names are
derived from the pair name and the exchange kinds. -/
structure ExchangePair where
  name : String
  source : ExchangeConfig
  dest : ExchangeConfig
deriving DecidableEq, Repr

def ExchangePair.make (name : String) (source_type dest_type : ExchangeType) :
    ExchangePair :=
  { name := name
    source := { name := name ++ ("." ++ source_type.value), type := source_type }
    dest := { name := name ++ ("." ++ dest_type.value), type := dest_type } }

/-- core.py `FanoutTopicPair.__init__`. -/
def FanoutTopicPair.make (name : String) : ExchangePair :=
  ExchangePair.make name .fanout .topic

/-- core.py `MessageInfrastructure._ensure_channel`: reacquire a fresh
channel from the same connection when the current one is closed. -/
def ensure_channel (s : MState) : MState :=
  if s.chanOpen then s else { emit .reopenChannel s with chanOpen := true }

/-- core.py `MessageInfrastructure._verify_exchange`: passive declaration;
a `ChannelClosedByBroker` is caught, the channel reacquired, and the reply
inspected for the substring NOT_FOUND; any closure without it is reported as
existence with type "unknown".  Other exceptions propagate. -/
def verify_exchange (name ty : String) (s : MState) :
    Except PikaErr (Bool × Option String) × MState :=
  match exchange_declare name ty true true s with
  | (.ok _, s) => (.ok (true, some ty), s)
  | (.error (.channelClosedByBroker reply), s) =>
      let s := ensure_channel s
      if strContains reply "NOT_FOUND" then (.ok (false, none), s)
      else (.ok (true, some "unknown"), s)
  | (.error e, s) => (.error e, s)

def optTypeStr : Option String → String
  | some x => x
  | none => "None"

/-- Body of the per-exchange loop of core.py `ExchangePair.setup`: verify,
then either accept a matching kind, fail on a mismatched kind, or create the
missing exchange with durable=True. -/
def setup_exchange (cfg : ExchangeConfig) (s : MState) : Except PyErr Unit × MState :=
  match verify_exchange cfg.name cfg.type.value s with
  | (.error e, s) => (.error (.pika e), s)
  | (.ok (ex, actual), s) =>
    if ex then
      if actual = some cfg.type.value then (.ok (), s)
      else (.error (.valueError ("Exchange " ++ cfg.name ++
              " exists with wrong type: " ++ optTypeStr actual)), s)
    else
      match exchange_declare cfg.name cfg.type.value true false s with
      | (.ok _, s) => (.ok (), s)
      | (.error e, s) => (.error (.pika e), s)

/-- core.py `ExchangePair._create_binding`: bind source to destination with
routing key "#"; a `ChannelClosedByBroker` is treated as the binding already
existing (channel reacquired); other exceptions propagate. -/
def create_binding (p : ExchangePair) (s : MState) : Except PyErr Unit × MState :=
  match exchange_bind p.source.name p.dest.name "#" s with
  | (.ok _, s) => (.ok (), s)
  | (.error (.channelClosedByBroker _), s) => (.ok (), ensure_channel s)
  | (.error e, s) => (.error (.pika e), s)

/-- core.py `ExchangePair.setup`: process source then destination, create the
binding, and wrap any raised exception in a generic `Exception`. -/
def ExchangePair.setup (p : ExchangePair) (s : MState) : Except PyErr Unit × MState :=
  let body :=
    match setup_exchange p.source s with
    | (.error e, s) => ((.error e : Except PyErr Unit), s)
    | (.ok _, s) =>
      match setup_exchange p.dest s with
      | (.error e, s) => (.error e, s)
      | (.ok _, s) => create_binding p s
  match body with
  | (.ok _, s) => (.ok (), s)
  | (.error e, s) =>
      (.error (.wrapped ("Error setting up ExchangePair: " ++ e.text)), s)

/-- The ensureExchangePair operation of the spec: construct the
`FanoutTopicPair` for a name and run its setup, returning the pair. -/
def ensureExchangePair (name : String) (s : MState) :
    Except PyErr ExchangePair × MState :=
  let p := FanoutTopicPair.make name
  match p.setup s with
  | (.ok _, s) => (.ok p, s)
  | (.error e, s) => (.error e, s)

/-- core.py `TopicQueuePair.__init__`: note the routing key defaults to the
empty string. -/
structure TopicQueuePair where
  topic : String
  queue : String
  routing_key : String
deriving DecidableEq, Repr

def TopicQueuePair.make (name queue_name : String) (routing_key : String := "") :
    TopicQueuePair :=
  { topic := name ++ ".topic", queue := queue_name, routing_key := routing_key }

/-- First block of core.py `TopicQueuePair.setup`: verify/create the topic
exchange; note a kind mismatch reported by verification is ignored here. -/
def tq_verify_create (topic : String) (s : MState) : Except PyErr Unit × MState :=
  match verify_exchange topic "topic" s with
  | (.error e, s) => (.error (.pika e), s)
  | (.ok (ex, _), s) =>
    if ex then (.ok (), s)
    else
      match exchange_declare topic "topic" true false s with
      | (.ok _, s) => (.ok (), s)
      | (.error e, s) => (.error (.pika e), s)

/-- Second block of core.py `TopicQueuePair.setup`: passively check the
queue; on any `ChannelClosedByBroker`, reacquire the channel and create the
queue. -/
def tq_ensure_queue (qn : String) (s : MState) : Except PyErr Unit × MState :=
  match queue_declare qn true true s with
  | (.ok _, s) => (.ok (), s)
  | (.error (.channelClosedByBroker _), s) =>
      match queue_declare qn true false (ensure_channel s) with
      | (.ok _, s) => (.ok (), s)
      | (.error e, s) => (.error (.pika e), s)
  | (.error e, s) => (.error (.pika e), s)

/-- Third block of core.py `TopicQueuePair.setup`: bind the queue to the
topic exchange with the stored routing key, treating a closure as the
binding already existing. -/
def tq_bind_queue (qn topic rk : String) (s : MState) : Except PyErr Unit × MState :=
  match queue_bind qn topic rk s with
  | (.ok _, s) => (.ok (), s)
  | (.error (.channelClosedByBroker _), s) => (.ok (), ensure_channel s)
  | (.error e, s) => (.error (.pika e), s)

/-- core.py `TopicQueuePair.setup`: the three blocks in sequence, wrapping
any raised exception in a generic `Exception`. -/
def TopicQueuePair.setup (tq : TopicQueuePair) (s : MState) :
    Except PyErr Unit × MState :=
  let step1 := tq_verify_create tq.topic s
  let step2 :=
    match step1 with
    | (.error e, s) => ((.error e : Except PyErr Unit), s)
    | (.ok _, s) => tq_ensure_queue tq.queue s
  let step3 :=
    match step2 with
    | (.error e, s) => ((.error e : Except PyErr Unit), s)
    | (.ok _, s) => tq_bind_queue tq.queue tq.topic tq.routing_key s
  match step3 with
  | (.ok _, s) => (.ok (), s)
  | (.error e, s) =>
      (.error (.wrapped ("Error setting up TopicQueuePair: " ++ e.text)), s)

/-- app.py `RabbitFlow._get_default_names`. -/
structure StageNames where
  fanout : String
  topic : String
  queue : String
deriving DecidableEq, Repr

def default_names (name : String) (stage : String) : StageNames :=
  if stage = "decodification" then
    ⟨name ++ ".raw.fanout", name ++ ".raw.topic", name ++ ".decodification.queue"⟩
  else if stage = "validation" then
    ⟨name ++ ".decoded.fanout", name ++ ".decoded.topic", name ++ ".validation.queue"⟩
  else
    ⟨name ++ ".validated.fanout", name ++ ".validated.topic", name ++ ".processing.queue"⟩

/-- Python's `provided or default` idiom: the default is used when the
argument is absent or the empty string. -/
def orDefault (o : Option String) (d : String) : String :=
  match o with
  | some v => if v = "" then d else v
  | none => d

/-- One topology-provisioning request issued by a register_* method of
app.py: an ExchangePair setup or a queue-binding setup. -/
inductive Provision where
  | exchangePairOf (fanout topic : String)
  | queueBindingOf (exchange queue : String)
deriving DecidableEq, Repr

def Provision.isPairSetup : Provision → Bool
  | .exchangePairOf _ _ => true
  | .queueBindingOf _ _ => false

/-- app.py `RabbitFlow.register_decoder`: the topology setups it performs, in
order — the decoder's own exchange pair, its queue binding, and the
validation stage's exchange pair. -/
def register_decoder (app : String)
    (fanout_name topic_name queue_name : Option String) : List Provision :=
  let d := default_names app "decodification"
  let fanout := orDefault fanout_name d.fanout
  let topic := orDefault topic_name d.topic
  let queue := orDefault queue_name d.queue
  let v := default_names app "validation"
  [.exchangePairOf fanout topic]
    ++ (if queue ≠ "" then [.queueBindingOf topic queue] else [])
    ++ [.exchangePairOf v.fanout v.topic]

/-- app.py `RabbitFlow.register_validator`: the validation pair, the
processing stage's exchange pair, then the queue binding. -/
def register_validator (app : String)
    (fanout_name topic_name queue_name : Option String) : List Provision :=
  let d := default_names app "validation"
  let fanout := orDefault fanout_name d.fanout
  let topic := orDefault topic_name d.topic
  let queue := orDefault queue_name d.queue
  let p := default_names app "processing"
  [.exchangePairOf fanout topic, .exchangePairOf p.fanout p.topic]
    ++ (if queue ≠ "" then [.queueBindingOf topic queue] else [])

/-- app.py `RabbitFlow.register_processor`: only the queue binding; no
exchange pair is provisioned. -/
def register_processor (app : String)
    (queue_name topic_name : Option String) : List Provision :=
  let d := default_names app "processing"
  let topic := orDefault topic_name d.topic
  let queue := orDefault queue_name d.queue
  if queue ≠ "" then [.queueBindingOf topic queue] else []

/-- Outcome of `channel.start_consuming()` as observed by app.py
`RabbitFlow.run`: normal return, a `KeyboardInterrupt`, or a fatal
exception with the given message. -/
inductive ConsumeOutcome where
  | finished
  | interrupted
  | fatal (msg : String)
deriving DecidableEq, Repr

/-- Observable actions of app.py `RabbitFlow.run` and rabbit.py
`RabbitClient.close`. -/
inductive RunEvent where
  | logMissingComponents
  | startConsuming
  | logFatal (msg : String)
  | logShutdownSignal
  | logShutdownCompleted
  | closeConnection
deriving DecidableEq, Repr

/-- rabbit.py `RabbitClient.close`: close the connection only when one is
open. -/
def RabbitClient.close (connOpen : Bool) : Bool × List RunEvent :=
  if connOpen then (false, [.closeConnection]) else (false, [])

/-- app.py `RabbitFlow.run`: verify components, start consuming; on
`KeyboardInterrupt` close the connection without re-raising; on any other
exception log it, close the connection and re-raise.  Returns the event
trace, the final connection-open flag, and the re-raised error if any. -/
def RabbitFlow.run (componentsPresent connOpen : Bool) (outcome : ConsumeOutcome) :
    List RunEvent × Bool × Option String :=
  if !componentsPresent then ([.logMissingComponents], connOpen, none)
  else
    match outcome with
    | .finished => ([.startConsuming], connOpen, none)
    | .interrupted =>
        let (c, ev) := RabbitClient.close connOpen
        ([.startConsuming, .logShutdownSignal] ++ ev ++ [.logShutdownCompleted], c, none)
    | .fatal m =>
        let (c, ev) := RabbitClient.close connOpen
        ([.startConsuming, .logFatal m] ++ ev, c, some m)

/-- Message payloads, as byte sequences. -/
abbrev Bytes := List Nat

/-- core.py `ProcessResult`: success flag, optional data, optional error. -/
structure ProcessResult where
  success : Bool
  data : Option Bytes
  error : Option String := none
deriving DecidableEq, Repr

/-- Observable actions of the per-message delivery handler. -/
inductive HandlerAction where
  | publish (exchange routing_key : String) (body : Bytes)
  | logPublishError (msg : String)
  | ack (delivery_tag : Nat)
deriving DecidableEq, Repr

def HandlerAction.isAck : HandlerAction → Bool
  | .ack _ => true
  | _ => false

/-- The success/failure output exchanges established for a stage, when an
output stage was named at registration. -/
structure StageOutputs where
  successExchange : Option String
  failureExchange : Option String
deriving DecidableEq, Repr

def encodeUtf8 (s : String) : Bytes := s.data.map Char.toNat

/-- Modelled from the spec: the Stage Router's per-message delivery handler,
which is not present under src/ (app.py's run only starts the consume loop;
the handler registration code is part of the repository snapshot that was
not provided).  Per the specification: invoke the processor; on success
publish a non-empty payload to the success fanout exchange with an empty
routing key when an output stage exists; on failure publish the UTF-8
encoded reason (a placeholder when empty) to the failure fanout exchange; a
publish failure is logged, not raised; the original delivery is always
acknowledged by its tag. -/
def handleDelivery (out : StageOutputs) (publishFails : Bool)
    (res : ProcessResult) (delivery_tag : Nat) : List HandlerAction :=
  let tryPublish (ex : String) (body : Bytes) : List HandlerAction :=
    if publishFails then [.publish ex "" body, .logPublishError "BrokerUnavailable"]
    else [.publish ex "" body]
  let pubs :=
    if res.success then
      match out.successExchange, res.data with
      | some ex, some body => if body ≠ [] then tryPublish ex body else []
      | _, _ => []
    else
      match out.failureExchange with
      | some ex =>
          let reason :=
            match res.error with
            | some r => if r = "" then "unknown error" else r
            | none => "unknown error"
          tryPublish ex (encodeUtf8 reason)
      | none => []
  pubs ++ [.ack delivery_tag]

/-- A non-passive (mutating) declaration event. -/
def Event.isRealDeclare : Event → Bool
  | .declareExchange _ _ _ passive => !passive
  | .declareQueue _ _ passive => !passive
  | _ => false

/-- Any binding operation event. -/
def Event.isBindOp : Event → Bool
  | .bindExchange _ _ _ => true
  | .bindQueue _ _ _ => true
  | _ => false

/-- The durable flag passed by a declaration event (true for non-declaration
events). -/
def Event.durableOk : Event → Bool
  | .declareExchange _ _ durable _ => durable
  | .declareQueue _ durable _ => durable
  | _ => true

/-- A pair name is established on a broker: both exchanges exist with the
declared kinds and the fanout-to-topic binding with key "#" exists. -/
def established (b : Broker) (name : String) : Prop :=
  (∃ d, lookupExch b.exchanges (name ++ ".fanout") = some ("fanout", d)) ∧
  (∃ d, lookupExch b.exchanges (name ++ ".topic") = some ("topic", d)) ∧
  (name ++ ".fanout", name ++ ".topic", "#") ∈ b.ebinds

theorem append_right_ne (n : String) {a b : String} (h : a ≠ b) :
    n ++ a ≠ n ++ b := by
  intro he
  apply h
  have hd : n.data ++ a.data = n.data ++ b.data := congrArg String.data he
  have h2 := List.append_cancel_left hd
  cases a; cases b; simp_all

theorem fanout_ne_topic (n : String) : n ++ ".fanout" ≠ n ++ ".topic" :=
  append_right_ne n (by decide)

theorem value_ne_unknown (t : ExchangeType) : t.value ≠ "unknown" := by
  cases t <;> decide

theorem strContains_notFound_exchange :
    strContains "NOT_FOUND - no exchange" "NOT_FOUND" = true := by decide

theorem strContains_notFound_precondition :
    strContains "PRECONDITION_FAILED - inequivalent arg" "NOT_FOUND" = false := by decide

theorem exchange_declare_found (n ty : String) (d durable passive : Bool) (s : MState)
    (hf : s.faults = [])
    (h : lookupExch s.broker.exchanges n = some (ty, d)) :
    exchange_declare n ty durable passive s =
      (.ok (), emit (.declareExchange n ty durable passive) s) := by
  unfold exchange_declare popFault
  simp [hf, emit, h]

theorem exchange_declare_mismatch (n ty ty0 : String) (d durable passive : Bool)
    (s : MState) (hf : s.faults = [])
    (h : lookupExch s.broker.exchanges n = some (ty0, d)) (hne : ty0 ≠ ty) :
    exchange_declare n ty durable passive s =
      (.error (.channelClosedByBroker "PRECONDITION_FAILED - inequivalent arg"),
       closeChan (emit (.declareExchange n ty durable passive) s)) := by
  unfold exchange_declare popFault
  simp [hf, emit, h, hne]

theorem exchange_declare_missing_passive (n ty : String) (durable : Bool) (s : MState)
    (hf : s.faults = [])
    (h : lookupExch s.broker.exchanges n = none) :
    exchange_declare n ty durable true s =
      (.error (.channelClosedByBroker "NOT_FOUND - no exchange"),
       closeChan (emit (.declareExchange n ty durable true) s)) := by
  unfold exchange_declare popFault
  simp [hf, emit, h]

theorem exchange_declare_missing_create (n ty : String) (durable : Bool) (s : MState)
    (hf : s.faults = [])
    (h : lookupExch s.broker.exchanges n = none) :
    exchange_declare n ty durable false s =
      (.ok (), { emit (.declareExchange n ty durable false) s with broker :=
        { s.broker with exchanges := (n, ty, durable) :: s.broker.exchanges } }) := by
  unfold exchange_declare popFault
  simp [hf, emit, h]

theorem verify_exchange_found (n ty : String) (d : Bool) (s : MState)
    (hf : s.faults = [])
    (h : lookupExch s.broker.exchanges n = some (ty, d)) :
    verify_exchange n ty s =
      (.ok (true, some ty), emit (.declareExchange n ty true true) s) := by
  unfold verify_exchange
  rw [exchange_declare_found n ty d true true s hf h]

theorem verify_exchange_mismatch (n ty ty0 : String) (d : Bool) (s : MState)
    (hf : s.faults = []) (hc : s.chanOpen = true)
    (h : lookupExch s.broker.exchanges n = some (ty0, d)) (hne : ty0 ≠ ty) :
    verify_exchange n ty s =
      (.ok (true, some "unknown"),
       { s with events := s.events ++ [.declareExchange n ty true true, .reopenChannel],
                chanOpen := true }) := by
  unfold verify_exchange
  rw [exchange_declare_mismatch n ty ty0 d true true s hf h hne]
  simp [ensure_channel, closeChan, emit, strContains_notFound_precondition]

theorem verify_exchange_missing (n ty : String) (s : MState)
    (hf : s.faults = []) (hc : s.chanOpen = true)
    (h : lookupExch s.broker.exchanges n = none) :
    verify_exchange n ty s =
      (.ok (false, none),
       { s with events := s.events ++ [.declareExchange n ty true true, .reopenChannel],
                chanOpen := true }) := by
  unfold verify_exchange
  rw [exchange_declare_missing_passive n ty true s hf h]
  simp [ensure_channel, closeChan, emit, strContains_notFound_exchange]

theorem setup_exchange_found (cfg : ExchangeConfig) (d : Bool) (s : MState)
    (hf : s.faults = [])
    (h : lookupExch s.broker.exchanges cfg.name = some (cfg.type.value, d)) :
    setup_exchange cfg s =
      (.ok (), emit (.declareExchange cfg.name cfg.type.value true true) s) := by
  unfold setup_exchange
  rw [verify_exchange_found cfg.name cfg.type.value d s hf h]
  simp

theorem setup_exchange_mismatch (cfg : ExchangeConfig) (ty0 : String) (d : Bool)
    (s : MState) (hf : s.faults = []) (hc : s.chanOpen = true)
    (h : lookupExch s.broker.exchanges cfg.name = some (ty0, d))
    (hne : ty0 ≠ cfg.type.value) :
    setup_exchange cfg s =
      (.error (.valueError ("Exchange " ++ cfg.name ++
         " exists with wrong type: unknown")),
       { s with events := s.events ++
                    [.declareExchange cfg.name cfg.type.value true true,
                     .reopenChannel],
                chanOpen := true }) := by
  unfold setup_exchange
  rw [verify_exchange_mismatch cfg.name cfg.type.value ty0 d s hf hc h hne]
  simp [optTypeStr, (value_ne_unknown cfg.type).symm, String.append_assoc]

theorem setup_exchange_missing (cfg : ExchangeConfig) (s : MState)
    (hf : s.faults = []) (hc : s.chanOpen = true)
    (h : lookupExch s.broker.exchanges cfg.name = none) :
    setup_exchange cfg s =
      (.ok (),
       { s with broker := { s.broker with exchanges :=
                              (cfg.name, cfg.type.value, true) :: s.broker.exchanges },
                events := s.events ++
                    [.declareExchange cfg.name cfg.type.value true true,
                     .reopenChannel,
                     .declareExchange cfg.name cfg.type.value true false],
                chanOpen := true }) := by
  unfold setup_exchange
  simp [verify_exchange_missing cfg.name cfg.type.value s hf hc h,
        exchange_declare_missing_create, hf, h, emit]

theorem create_binding_present (p : ExchangePair) (s : MState)
    (hf : s.faults = []) (hc : s.chanOpen = true)
    (h : (p.source.name, p.dest.name, "#") ∈ s.broker.ebinds) :
    create_binding p s =
      (.ok (),
       { s with events := s.events ++
                    [.bindExchange p.source.name p.dest.name "#",
                     .reopenChannel],
                chanOpen := true }) := by
  unfold create_binding exchange_bind popFault
  simp [hf, emit, h, ensure_channel, closeChan]

theorem create_binding_absent (p : ExchangePair) (s : MState)
    (hf : s.faults = [])
    (h : (p.source.name, p.dest.name, "#") ∉ s.broker.ebinds) :
    create_binding p s =
      (.ok (),
       { s with broker := { s.broker with ebinds :=
                              (p.source.name, p.dest.name, "#") :: s.broker.ebinds },
                events := s.events ++
                    [.bindExchange p.source.name p.dest.name "#"] }) := by
  unfold create_binding exchange_bind popFault
  simp [hf, emit, h]

theorem ftp_source (name : String) :
    (FanoutTopicPair.make name).source =
      { name := name ++ ".fanout", type := .fanout, durable := true } := rfl

theorem ftp_dest (name : String) :
    (FanoutTopicPair.make name).dest =
      { name := name ++ ".topic", type := .topic, durable := true } := rfl

theorem setup_exchange_found_ex (cfg : ExchangeConfig) (s : MState)
    (hf : s.faults = [])
    (h : ∃ d, lookupExch s.broker.exchanges cfg.name = some (cfg.type.value, d)) :
    setup_exchange cfg s =
      (.ok (), emit (.declareExchange cfg.name cfg.type.value true true) s) := by
  obtain ⟨d, h⟩ := h
  exact setup_exchange_found cfg d s hf h

theorem setup_exchange_ok_char (cfg : ExchangeConfig) (s s' : MState)
    (hf : s.faults = []) (hc : s.chanOpen = true)
    (h : setup_exchange cfg s = (.ok (), s')) :
    s'.faults = [] ∧ s'.chanOpen = true ∧
    s'.broker.ebinds = s.broker.ebinds ∧
    (∃ d, lookupExch s'.broker.exchanges cfg.name = some (cfg.type.value, d)) ∧
    (∀ m, m ≠ cfg.name →
      lookupExch s'.broker.exchanges m = lookupExch s.broker.exchanges m) := by
  rcases hl : lookupExch s.broker.exchanges cfg.name with _ | ⟨ty0, d⟩
  · rw [setup_exchange_missing cfg s hf hc hl] at h
    simp only [Prod.mk.injEq, true_and] at h
    subst h
    refine ⟨by simp [hf], rfl, by simp, ⟨true, by simp [lookupExch]⟩, ?_⟩
    intro m hm
    simp [lookupExch, Ne.symm hm]
  · by_cases hty : ty0 = cfg.type.value
    · subst hty
      rw [setup_exchange_found cfg d s hf hl] at h
      simp only [Prod.mk.injEq, true_and] at h
      subst h
      exact ⟨by simp [emit, hf], by simp [emit, hc], by simp [emit],
        ⟨d, by simp [emit, hl]⟩, fun m hm => by simp [emit]⟩
    · rw [setup_exchange_mismatch cfg ty0 d s hf hc hl hty] at h
      simp at h

theorem create_binding_char (p : ExchangePair) (s : MState)
    (hf : s.faults = []) (hc : s.chanOpen = true) :
    ∃ s', create_binding p s = (.ok (), s') ∧
      s'.broker.exchanges = s.broker.exchanges ∧
      (p.source.name, p.dest.name, "#") ∈ s'.broker.ebinds ∧
      s'.faults = [] ∧ s'.chanOpen = true := by
  by_cases hm : (p.source.name, p.dest.name, "#") ∈ s.broker.ebinds
  · exact ⟨_, create_binding_present p s hf hc hm, by simp, by simpa using hm,
      by simp [hf], rfl⟩
  · exact ⟨_, create_binding_absent p s hf hm, by simp, by simp,
      by simp [hf], by simpa using hc⟩

theorem ensure_ok_out (name : String) (B : Broker) (p : ExchangePair) (s' : MState)
    (h : ensureExchangePair name (initState B) = (.ok p, s')) :
    p = FanoutTopicPair.make name ∧ established s'.broker name := by
  simp only [ensureExchangePair, ExchangePair.setup] at h
  rcases e1 : setup_exchange (FanoutTopicPair.make name).source (initState B) with ⟨r1, s1⟩
  rw [e1] at h
  rcases r1 with e | u
  · simp at h
  · simp only [] at h
    rcases e2 : setup_exchange (FanoutTopicPair.make name).dest s1 with ⟨r2, s2⟩
    rw [e2] at h
    rcases r2 with e | u
    · simp at h
    · simp only [] at h
      obtain ⟨hf1, hc1, hb1, hk1, hfr1⟩ :=
        setup_exchange_ok_char _ _ _ rfl rfl e1
      obtain ⟨hf2, hc2, hb2, hk2, hfr2⟩ :=
        setup_exchange_ok_char _ _ _ hf1 hc1 e2
      obtain ⟨s3, e3, hx3, hm3, hf3, hc3⟩ :=
        create_binding_char (FanoutTopicPair.make name) s2 hf2 hc2
      rw [e3] at h
      simp at h
      obtain ⟨rfl, rfl⟩ := h
      refine ⟨rfl, ?_⟩
      unfold established
      refine ⟨?_, ?_, ?_⟩
      · obtain ⟨d, hd⟩ := hk1
        refine ⟨d, ?_⟩
        rw [hx3]
        rw [hfr2 _ (fanout_ne_topic name)]
        simpa [ftp_source] using hd
      · obtain ⟨d, hd⟩ := hk2
        refine ⟨d, ?_⟩
        rw [hx3]
        simpa [ftp_dest] using hd
      · simpa [ftp_source, ftp_dest] using hm3

theorem setup_established (name : String) (B : Broker)
    (h1 : ∃ d, lookupExch B.exchanges (name ++ ".fanout") = some ("fanout", d))
    (h2 : ∃ d, lookupExch B.exchanges (name ++ ".topic") = some ("topic", d))
    (h3 : (name ++ ".fanout", name ++ ".topic", "#") ∈ B.ebinds) :
    ensureExchangePair name (initState B) =
      (.ok (FanoutTopicPair.make name),
       { broker := B, chanOpen := true,
         events := [.declareExchange (name ++ ".fanout") "fanout" true true,
                    .declareExchange (name ++ ".topic") "topic" true true,
                    .bindExchange (name ++ ".fanout") (name ++ ".topic") "#",
                    .reopenChannel],
         faults := [] }) := by
  simp only [ensureExchangePair, ExchangePair.setup]
  rw [setup_exchange_found_ex _ (initState B) rfl (by simpa [ftp_source] using h1)]
  simp only []
  rw [setup_exchange_found_ex _ _ (by simp [emit, initState])
        (by simpa [ftp_dest, emit, initState] using h2)]
  simp only []
  rw [create_binding_present _ _ (by simp [emit, initState])
        (by simp [emit, initState])
        (by simpa [ftp_source, ftp_dest, emit, initState] using h3)]
  simp [emit, initState, ftp_source, ftp_dest, ExchangeType.value]

/-- C1: for every exchange-pair name, running ensureExchangePair
(ExchangePair.setup) a second time against the broker state left by a
successful first run performs no additional broker mutations (no non-passive
declarations: the second trace contains only passive declarations and a bind
attempt the broker rejects as already bound), leaves the broker state
unchanged, and yields the same ExchangePair as the first run. -/
theorem ensureExchangePair_idempotent (B : Broker) (name : String)
    (p : ExchangePair) (s1 : MState)
    (h : ensureExchangePair name (initState B) = (.ok p, s1)) :
    ∃ s2, ensureExchangePair name (initState s1.broker) = (.ok p, s2) ∧
      s2.broker = s1.broker ∧
      s2.events.countP Event.isRealDeclare = 0 := by
  obtain ⟨rfl, hest⟩ := ensure_ok_out name B p s1 h
  obtain ⟨h1, h2, h3⟩ := hest
  refine ⟨_, setup_established name s1.broker h1 h2 h3, rfl, ?_⟩
  simp [List.countP_cons, Event.isRealDeclare]

/-- C1 witness: concrete instantiation at pair name "x" starting from the
empty broker. -/
theorem ensureExchangePair_idempotent_witness :
    ∃ s2, ensureExchangePair "x"
        (initState (ensureExchangePair "x" (initState {})).2.broker) =
        (.ok (FanoutTopicPair.make "x"), s2) ∧
      s2.broker = (ensureExchangePair "x" (initState {})).2.broker ∧
      s2.events.countP Event.isRealDeclare = 0 :=
  ensureExchangePair_idempotent {} "x" (FanoutTopicPair.make "x")
    (ensureExchangePair "x" (initState {})).2 (by rfl)

/-- C2: when the broker reports that one of the two exchanges already exists
with a kind different from the declared one, ensureExchangePair fails with
the topology-conflict error (the wrapped wrong-type ValueError of core.py),
performs no binding attempt and does not retry: the complete trace is the
single passive verification per checked exchange (plus the channel
reacquisition), the broker state is unchanged, and no bind operation
appears. -/
theorem ensureExchangePair_conflict (B : Broker) (name : String) :
    (∀ ty d, lookupExch B.exchanges (name ++ ".fanout") = some (ty, d) →
      ty ≠ "fanout" →
      ensureExchangePair name (initState B) =
        (.error (.wrapped ("Error setting up ExchangePair: " ++
           ("Exchange " ++ (name ++ ".fanout") ++
            " exists with wrong type: unknown"))),
         { broker := B, chanOpen := true,
           events := [.declareExchange (name ++ ".fanout") "fanout" true true,
                      .reopenChannel],
           faults := [] })) ∧
    (∀ ty d1 d2, lookupExch B.exchanges (name ++ ".fanout") = some ("fanout", d1) →
      lookupExch B.exchanges (name ++ ".topic") = some (ty, d2) →
      ty ≠ "topic" →
      ensureExchangePair name (initState B) =
        (.error (.wrapped ("Error setting up ExchangePair: " ++
           ("Exchange " ++ (name ++ ".topic") ++
            " exists with wrong type: unknown"))),
         { broker := B, chanOpen := true,
           events := [.declareExchange (name ++ ".fanout") "fanout" true true,
                      .declareExchange (name ++ ".topic") "topic" true true,
                      .reopenChannel],
           faults := [] })) := by
  constructor
  · intro ty d hl hne
    simp only [ensureExchangePair, ExchangePair.setup, ftp_source, ftp_dest]
    rw [setup_exchange_mismatch ⟨name ++ ".fanout", .fanout, true⟩ ty d
          (initState B) rfl rfl hl hne]
    simp [initState, PyErr.text, ExchangeType.value]
  · intro ty d1 d2 hl1 hl2 hne
    simp only [ensureExchangePair, ExchangePair.setup, ftp_source, ftp_dest]
    rw [setup_exchange_found ⟨name ++ ".fanout", .fanout, true⟩ d1
          (initState B) rfl hl1]
    simp only []
    rw [setup_exchange_mismatch ⟨name ++ ".topic", .topic, true⟩ ty d2]
    · simp [emit, initState, PyErr.text, ExchangeType.value]
    · simp [emit, initState]
    · simp [emit, initState]
    · simpa [emit, initState] using hl2
    · exact hne

/-- C2 witness: concrete conflicts — "x.fanout" existing with kind topic, and
"x.topic" existing with kind fanout while "x.fanout" is correct. -/
theorem ensureExchangePair_conflict_witness :
    (ensureExchangePair "x" (initState { exchanges := [("x.fanout", "topic", true)] }) =
      (.error (.wrapped ("Error setting up ExchangePair: " ++
         ("Exchange " ++ ("x" ++ ".fanout") ++ " exists with wrong type: unknown"))),
       { broker := { exchanges := [("x.fanout", "topic", true)] }, chanOpen := true,
         events := [.declareExchange ("x" ++ ".fanout") "fanout" true true,
                    .reopenChannel],
         faults := [] })) ∧
    (ensureExchangePair "x" (initState { exchanges :=
        [("x.fanout", "fanout", true), ("x.topic", "fanout", true)] }) =
      (.error (.wrapped ("Error setting up ExchangePair: " ++
         ("Exchange " ++ ("x" ++ ".topic") ++ " exists with wrong type: unknown"))),
       { broker := { exchanges := [("x.fanout", "fanout", true), ("x.topic", "fanout", true)] },
         chanOpen := true,
         events := [.declareExchange ("x" ++ ".fanout") "fanout" true true,
                    .declareExchange ("x" ++ ".topic") "topic" true true,
                    .reopenChannel],
         faults := [] })) :=
  ⟨(ensureExchangePair_conflict { exchanges := [("x.fanout", "topic", true)] } "x").1
      "topic" true (by decide) (by decide),
   (ensureExchangePair_conflict { exchanges :=
        [("x.fanout", "fanout", true), ("x.topic", "fanout", true)] } "x").2
      "fanout" true true (by decide) (by decide) (by decide)⟩

def faultState (B : Broker) (fs : List (Option PikaErr)) : MState :=
  { broker := B, faults := fs }

/-- C5: once both exchanges of the pair are confirmed, ensureExchangePair
attempts to bind fanout to topic with routing key "#": when the broker
reports the binding already exists the call still succeeds (benign
conflict); when the binding is absent it is created; and any other broker
error during the binding step (here a connection-level StreamLost) is fatal
for the call and propagates, wrapped, to the caller. -/
theorem ensureExchangePair_binding (B : Broker) (name : String) (d1 d2 : Bool)
    (hl1 : lookupExch B.exchanges (name ++ ".fanout") = some ("fanout", d1))
    (hl2 : lookupExch B.exchanges (name ++ ".topic") = some ("topic", d2)) :
    ((name ++ ".fanout", name ++ ".topic", "#") ∈ B.ebinds →
      ensureExchangePair name (initState B) =
        (.ok (FanoutTopicPair.make name),
         { broker := B, chanOpen := true,
           events := [.declareExchange (name ++ ".fanout") "fanout" true true,
                      .declareExchange (name ++ ".topic") "topic" true true,
                      .bindExchange (name ++ ".fanout") (name ++ ".topic") "#",
                      .reopenChannel],
           faults := [] })) ∧
    ((name ++ ".fanout", name ++ ".topic", "#") ∉ B.ebinds →
      ensureExchangePair name (initState B) =
        (.ok (FanoutTopicPair.make name),
         { broker := { B with ebinds :=
               (name ++ ".fanout", name ++ ".topic", "#") :: B.ebinds },
           chanOpen := true,
           events := [.declareExchange (name ++ ".fanout") "fanout" true true,
                      .declareExchange (name ++ ".topic") "topic" true true,
                      .bindExchange (name ++ ".fanout") (name ++ ".topic") "#"],
           faults := [] })) ∧
    (∀ r, ensureExchangePair name
        (faultState B [none, none, some (.streamLost r)]) =
      (.error (.wrapped ("Error setting up ExchangePair: " ++ r)),
       { broker := B, chanOpen := false,
         events := [.declareExchange (name ++ ".fanout") "fanout" true true,
                    .declareExchange (name ++ ".topic") "topic" true true,
                    .bindExchange (name ++ ".fanout") (name ++ ".topic") "#"],
         faults := [] })) := by
  refine ⟨fun hm => setup_established name B ⟨d1, hl1⟩ ⟨d2, hl2⟩ hm, fun hm => ?_, fun r => ?_⟩
  · simp only [ensureExchangePair, ExchangePair.setup, ftp_source, ftp_dest]
    rw [setup_exchange_found ⟨name ++ ".fanout", .fanout, true⟩ d1
          (initState B) rfl hl1]
    simp only []
    rw [setup_exchange_found ⟨name ++ ".topic", .topic, true⟩ d2]
    · simp only []
      rw [create_binding_absent (FanoutTopicPair.make name)]
      · simp [emit, initState, ExchangeType.value, ftp_source, ftp_dest]
      · simp [emit, initState]
      · simpa [emit, initState, ftp_source, ftp_dest] using hm
    · simp [emit, initState]
    · simpa [emit, initState] using hl2
  · simp only [ensureExchangePair, ExchangePair.setup, ftp_source, ftp_dest,
      setup_exchange, verify_exchange, exchange_declare, create_binding,
      exchange_bind, popFault, emit, closeChan, ensure_channel, faultState]
    simp [hl1, hl2, ExchangeType.value, PyErr.text, PikaErr.text]

/-- Concrete broker with both exchanges of pair "x" present. -/
def twoExchB : Broker :=
  { exchanges := [("x.fanout", "fanout", true), ("x.topic", "topic", true)] }

/-- Same broker with the fanout-to-topic binding already present. -/
def twoExchBoundB : Broker :=
  { twoExchB with ebinds := [("x.fanout", "x.topic", "#")] }

/-- C5 witness: concrete broker with both exchanges of pair "x" present; the
already-bound and fatal-error binding behaviors at routing key "#". -/
theorem ensureExchangePair_binding_witness :
    (ensureExchangePair "x" (initState twoExchBoundB) =
      (.ok (FanoutTopicPair.make "x"),
       { broker := twoExchBoundB,
         chanOpen := true,
         events := [.declareExchange ("x" ++ ".fanout") "fanout" true true,
                    .declareExchange ("x" ++ ".topic") "topic" true true,
                    .bindExchange ("x" ++ ".fanout") ("x" ++ ".topic") "#",
                    .reopenChannel],
         faults := [] })) ∧
    (∀ r, ensureExchangePair "x"
        (faultState twoExchB [none, none, some (.streamLost r)]) =
      (.error (.wrapped ("Error setting up ExchangePair: " ++ r)),
       { broker := twoExchB,
         chanOpen := false,
         events := [.declareExchange ("x" ++ ".fanout") "fanout" true true,
                    .declareExchange ("x" ++ ".topic") "topic" true true,
                    .bindExchange ("x" ++ ".fanout") ("x" ++ ".topic") "#"],
         faults := [] })) :=
  ⟨(ensureExchangePair_binding twoExchBoundB "x" true true
      (by decide) (by decide)).1 (by decide),
   (ensureExchangePair_binding twoExchB "x" true true
      (by decide) (by decide)).2.2⟩

/-- An established pair for `name`: both exchanges with correct kinds and the
binding present. -/
def estB (name : String) : Broker :=
  { exchanges := [(name ++ ".fanout", "fanout", true), (name ++ ".topic", "topic", true)],
    ebinds := [(name ++ ".fanout", name ++ ".topic", "#")] }

/-- C3 counterexample: the claim says a broker-initiated channel closure
during any provisioning step is recovered by reacquiring a channel and
resuming, completing the call.  Concretely, a closure (reply
CONNECTION_FORCED, not NOT_FOUND) during the first passive verification of
an already fully established pair "x" makes the call fail with the
wrong-type error instead of completing: `_verify_exchange` reinterprets any
non-NOT_FOUND closure as a kind conflict and never retries the step. -/
theorem channel_recovery_counterexample :
    (ensureExchangePair "x" (faultState twoExchBoundB
        [some (.channelClosedByBroker "CONNECTION_FORCED - broker forced closure")])).1 =
      .error (.wrapped ("Error setting up ExchangePair: " ++
        ("Exchange " ++ ("x" ++ ".fanout") ++
         " exists with wrong type: unknown"))) := by rfl

/-- C3 amended: channel reacquisition happens only inside passive
verification and binding, where the provisioner continues by interpreting
the closure rather than retrying the failed operation: a NOT_FOUND closure
during verification leads to one reacquisition and a single real
declaration of the missing exchange (the call completes, each resource
created exactly once); any other closure during verification leads to one
reacquisition and a kind-conflict failure; a closure during a real
(non-passive) declaration propagates as a fatal error with no
reacquisition. -/
theorem channel_recovery_amended (name : String) :
    (ensureExchangePair name (initState {}) =
      (.ok (FanoutTopicPair.make name),
       { broker := { exchanges := [(name ++ ".topic", "topic", true),
                                   (name ++ ".fanout", "fanout", true)],
                     ebinds := [(name ++ ".fanout", name ++ ".topic", "#")] },
         chanOpen := true,
         events := [.declareExchange (name ++ ".fanout") "fanout" true true,
                    .reopenChannel,
                    .declareExchange (name ++ ".fanout") "fanout" true false,
                    .declareExchange (name ++ ".topic") "topic" true true,
                    .reopenChannel,
                    .declareExchange (name ++ ".topic") "topic" true false,
                    .bindExchange (name ++ ".fanout") (name ++ ".topic") "#"],
         faults := [] })) ∧
    (∀ r, strContains r "NOT_FOUND" = false →
      ensureExchangePair name (faultState (estB name)
          [some (.channelClosedByBroker r)]) =
        (.error (.wrapped ("Error setting up ExchangePair: " ++
           ("Exchange " ++ (name ++ ".fanout") ++
            " exists with wrong type: unknown"))),
         { broker := estB name, chanOpen := true,
           events := [.declareExchange (name ++ ".fanout") "fanout" true true,
                      .reopenChannel],
           faults := [] })) ∧
    (∀ r, ensureExchangePair name (faultState {}
          [none, some (.channelClosedByBroker r)]) =
        (.error (.wrapped ("Error setting up ExchangePair: " ++ r)),
         { broker := {}, chanOpen := false,
           events := [.declareExchange (name ++ ".fanout") "fanout" true true,
                      .reopenChannel,
                      .declareExchange (name ++ ".fanout") "fanout" true false],
           faults := [] })) := by
  refine ⟨?_, fun r hr => ?_, fun r => ?_⟩
  · simp only [ensureExchangePair, ExchangePair.setup, ftp_source, ftp_dest,
      setup_exchange, verify_exchange, exchange_declare, create_binding,
      exchange_bind, popFault, emit, closeChan, ensure_channel, initState,
      lookupExch]
    simp [ExchangeType.value, strContains_notFound_exchange, optTypeStr,
      lookupExch, fanout_ne_topic name, (fanout_ne_topic name).symm]
  · simp only [ensureExchangePair, ExchangePair.setup, ftp_source, ftp_dest,
      setup_exchange, verify_exchange, exchange_declare, create_binding,
      exchange_bind, popFault, emit, closeChan, ensure_channel, faultState]
    simp [hr, ExchangeType.value, optTypeStr, PyErr.text, PikaErr.text,
      String.append_assoc]
  · simp only [ensureExchangePair, ExchangePair.setup, ftp_source, ftp_dest,
      setup_exchange, verify_exchange, exchange_declare, create_binding,
      exchange_bind, popFault, emit, closeChan, ensure_channel, faultState,
      lookupExch]
    simp [ExchangeType.value, strContains_notFound_exchange, optTypeStr,
      PyErr.text, PikaErr.text]

/-- C3 amended witness: instantiation at name "x" and reply
CONNECTION_FORCED. -/
theorem channel_recovery_amended_witness :
    strContains "CONNECTION_FORCED - broker forced closure" "NOT_FOUND" = false ∧
    ensureExchangePair "x" (faultState (estB "x")
        [some (.channelClosedByBroker "CONNECTION_FORCED - broker forced closure")]) =
      (.error (.wrapped ("Error setting up ExchangePair: " ++
         ("Exchange " ++ ("x" ++ ".fanout") ++
          " exists with wrong type: unknown"))),
       { broker := estB "x", chanOpen := true,
         events := [.declareExchange ("x" ++ ".fanout") "fanout" true true,
                    .reopenChannel],
         faults := [] }) :=
  ⟨by decide,
   (channel_recovery_amended "x").2.1 "CONNECTION_FORCED - broker forced closure"
     (by decide)⟩

/-- Concrete broker with the topic exchange of "x" and queue "q" present. -/
def queueB : Broker :=
  { exchanges := [("x.topic", "topic", true)], queues := ["q"] }

/-- C6 counterexample: the claim says the queue-to-topic binding defaults to
routing key "#".  Concretely, a TopicQueuePair built without an explicit
routing key (TopicQueuePair.__init__ defaults routing_key to the empty
string) binds queue "q" to "x.topic" with routing key "", and no binding
with key "#" is ever attempted. -/
theorem queue_routing_key_counterexample :
    (TopicQueuePair.make "x" "q").routing_key = "" ∧
    ((TopicQueuePair.make "x" "q").setup (initState queueB)).2.events =
      [.declareExchange "x.topic" "topic" true true,
       .declareQueue "q" true true,
       .bindQueue "q" "x.topic" ""] ∧
    ((TopicQueuePair.make "x" "q").setup (initState queueB)).2.events.countP
        (fun e => e == .bindQueue "q" "x.topic" "#") = 0 := by
  refine ⟨rfl, by rfl, by rfl⟩

/-- C6 amended: the queue-to-topic binding uses routing key "" (the empty
string) when the caller does not override it — TopicQueuePair.__init__
defaults routing_key to "" — and an explicit caller-supplied key is used
verbatim. -/
theorem queue_routing_key_amended (name qn : String) (B : Broker) (d : Bool)
    (h1 : lookupExch B.exchanges (name ++ ".topic") = some ("topic", d))
    (h2 : qn ∈ B.queues)
    (h3 : (qn, name ++ ".topic", "") ∉ B.qbinds) :
    (TopicQueuePair.make name qn).routing_key = "" ∧
    (∀ rk, (TopicQueuePair.make name qn rk).routing_key = rk) ∧
    (TopicQueuePair.make name qn).setup (initState B) =
      (.ok (),
       { broker := { B with qbinds := (qn, name ++ ".topic", "") :: B.qbinds },
         chanOpen := true,
         events := [.declareExchange (name ++ ".topic") "topic" true true,
                    .declareQueue qn true true,
                    .bindQueue qn (name ++ ".topic") ""],
         faults := [] }) := by
  refine ⟨rfl, fun rk => rfl, ?_⟩
  simp only [TopicQueuePair.setup, TopicQueuePair.make, tq_verify_create,
    tq_ensure_queue, tq_bind_queue, verify_exchange, exchange_declare,
    queue_declare, queue_bind, popFault, emit, closeChan, ensure_channel,
    initState]
  simp [h1, h2, h3]

/-- C6 amended witness: instantiation at name "x", queue "q". -/
theorem queue_routing_key_amended_witness :
    (TopicQueuePair.make "x" "q").routing_key = "" ∧
    (∀ rk, (TopicQueuePair.make "x" "q" rk).routing_key = rk) ∧
    (TopicQueuePair.make "x" "q").setup (initState queueB) =
      (.ok (),
       { broker := { queueB with qbinds := [("q", "x" ++ ".topic", "")] },
         chanOpen := true,
         events := [.declareExchange ("x" ++ ".topic") "topic" true true,
                    .declareQueue "q" true true,
                    .bindQueue "q" ("x" ++ ".topic") ""],
         faults := [] }) :=
  queue_routing_key_amended "x" "q" queueB true (by decide) (by decide) (by decide)

theorem exchange_declare_events (n ty : String) (d p : Bool) (s : MState)
    (r : Except PikaErr Unit) (s' : MState)
    (h : exchange_declare n ty d p s = (r, s')) :
    s'.events = s.events ++ [.declareExchange n ty d p] := by
  unfold exchange_declare popFault emit closeChan at h
  rcases hf : s.faults with _ | ⟨f0, fs⟩ <;> rw [hf] at h
  all_goals (repeat' first | simp only [] at h | split at h)
  all_goals (injection h with h1 h2; subst h2; simp)

theorem exchange_bind_events (src dst k : String) (s : MState)
    (r : Except PikaErr Unit) (s' : MState)
    (h : exchange_bind src dst k s = (r, s')) :
    s'.events = s.events ++ [.bindExchange src dst k] := by
  unfold exchange_bind popFault emit closeChan at h
  rcases hf : s.faults with _ | ⟨f0, fs⟩ <;> rw [hf] at h
  all_goals (repeat' first | simp only [] at h | split at h)
  all_goals (injection h with h1 h2; subst h2; simp)

theorem queue_declare_events (n : String) (d p : Bool) (s : MState)
    (r : Except PikaErr Unit) (s' : MState)
    (h : queue_declare n d p s = (r, s')) :
    s'.events = s.events ++ [.declareQueue n d p] := by
  unfold queue_declare popFault emit closeChan at h
  rcases hf : s.faults with _ | ⟨f0, fs⟩ <;> rw [hf] at h
  all_goals (repeat' first | simp only [] at h | split at h)
  all_goals (injection h with h1 h2; subst h2; simp)

theorem queue_bind_events (q ex k : String) (s : MState)
    (r : Except PikaErr Unit) (s' : MState)
    (h : queue_bind q ex k s = (r, s')) :
    s'.events = s.events ++ [.bindQueue q ex k] := by
  unfold queue_bind popFault emit closeChan at h
  rcases hf : s.faults with _ | ⟨f0, fs⟩ <;> rw [hf] at h
  all_goals (repeat' first | simp only [] at h | split at h)
  all_goals (injection h with h1 h2; subst h2; simp)

theorem ensure_channel_events (s : MState) :
    (ensure_channel s).events = s.events ∨
    (ensure_channel s).events = s.events ++ [.reopenChannel] := by
  unfold ensure_channel emit
  split <;> simp

theorem verify_exchange_all (n ty : String) (s : MState)
    (r : Except PikaErr (Bool × Option String)) (s' : MState)
    (h : verify_exchange n ty s = (r, s'))
    (P : Event → Prop)
    (h0 : ∀ e ∈ s.events, P e)
    (h1 : P (.declareExchange n ty true true))
    (h2 : P .reopenChannel) :
    ∀ e ∈ s'.events, P e := by
  unfold verify_exchange at h
  split at h
  case _ s1 heq =>
    injection h with ha hb
    subst hb
    have := exchange_declare_events n ty true true s _ _ heq
    intro e he
    rw [this] at he
    rcases List.mem_append.mp he with h | h
    · exact h0 e h
    · simpa using (by simpa using h) ▸ h1
  case _ reply s1 heq =>
    split at h <;>
    · injection h with ha hb
      subst hb
      have hev := exchange_declare_events n ty true true s _ _ heq
      intro e he
      rcases ensure_channel_events s1 with hc | hc <;> rw [hc] at he
      · rw [hev] at he
        rcases List.mem_append.mp he with h | h
        · exact h0 e h
        · simpa using (by simpa using h) ▸ h1
      · rw [hev] at he
        rcases List.mem_append.mp he with h | h
        · rcases List.mem_append.mp h with h | h
          · exact h0 e h
          · simpa using (by simpa using h) ▸ h1
        · simpa using (by simpa using h) ▸ h2
  case _ e1 s1 hne heq =>
    injection h with ha hb
    subst hb
    have hev := exchange_declare_events n ty true true s _ _ heq
    intro e he
    rw [hev] at he
    rcases List.mem_append.mp he with h | h
    · exact h0 e h
    · simpa using (by simpa using h) ▸ h1

theorem setup_exchange_all (cfg : ExchangeConfig) (s : MState)
    (r : Except PyErr Unit) (s' : MState)
    (h : setup_exchange cfg s = (r, s'))
    (P : Event → Prop)
    (h0 : ∀ e ∈ s.events, P e)
    (h1 : ∀ ps : Bool, P (.declareExchange cfg.name cfg.type.value true ps))
    (h2 : P .reopenChannel) :
    ∀ e ∈ s'.events, P e := by
  unfold setup_exchange at h
  split at h
  case _ e1 s1 heq =>
    injection h with ha hb
    subst hb
    exact verify_exchange_all _ _ _ _ _ heq P h0 (h1 true) h2
  case _ ex actual s1 heq =>
    have hs1 : ∀ e ∈ s1.events, P e :=
      verify_exchange_all _ _ _ _ _ heq P h0 (h1 true) h2
    split at h
    · split at h
      · injection h with ha hb
        subst hb
        exact hs1
      · injection h with ha hb
        subst hb
        exact hs1
    · split at h
      case _ u s2 heq2 =>
        injection h with ha hb
        subst hb
        have hev := exchange_declare_events cfg.name cfg.type.value true false s1 _ _ heq2
        intro e he
        rw [hev] at he
        rcases List.mem_append.mp he with hm | hm
        · exact hs1 e hm
        · simpa using (by simpa using hm) ▸ h1 false
      case _ e2 s2 heq2 =>
        injection h with ha hb
        subst hb
        have hev := exchange_declare_events cfg.name cfg.type.value true false s1 _ _ heq2
        intro e he
        rw [hev] at he
        rcases List.mem_append.mp he with hm | hm
        · exact hs1 e hm
        · simpa using (by simpa using hm) ▸ h1 false

theorem create_binding_all (p : ExchangePair) (s : MState)
    (r : Except PyErr Unit) (s' : MState)
    (h : create_binding p s = (r, s'))
    (P : Event → Prop)
    (h0 : ∀ e ∈ s.events, P e)
    (hb : P (.bindExchange p.source.name p.dest.name "#"))
    (hr : P .reopenChannel) :
    ∀ e ∈ s'.events, P e := by
  unfold create_binding at h
  split at h
  case _ u s1 heq =>
    injection h with ha hb2
    subst hb2
    have hev := exchange_bind_events _ _ _ s _ _ heq
    intro e he
    rw [hev] at he
    rcases List.mem_append.mp he with hm | hm
    · exact h0 e hm
    · simpa using (by simpa using hm) ▸ hb
  case _ reply s1 heq =>
    injection h with ha hb2
    subst hb2
    have hev := exchange_bind_events _ _ _ s _ _ heq
    intro e he
    rcases ensure_channel_events s1 with hc | hc <;> rw [hc] at he
    · rw [hev] at he
      rcases List.mem_append.mp he with hm | hm
      · exact h0 e hm
      · simpa using (by simpa using hm) ▸ hb
    · rw [hev] at he
      rcases List.mem_append.mp he with hm | hm
      · rcases List.mem_append.mp hm with hm2 | hm2
        · exact h0 e hm2
        · simpa using (by simpa using hm2) ▸ hb
      · simpa using (by simpa using hm) ▸ hr
  case _ e1 s1 hne heq =>
    injection h with ha hb2
    subst hb2
    have hev := exchange_bind_events _ _ _ s _ _ heq
    intro e he
    rw [hev] at he
    rcases List.mem_append.mp he with hm | hm
    · exact h0 e hm
    · simpa using (by simpa using hm) ▸ hb

theorem pair_setup_all (p : ExchangePair) (s : MState)
    (r : Except PyErr Unit) (s' : MState)
    (h : p.setup s = (r, s'))
    (P : Event → Prop)
    (h0 : ∀ e ∈ s.events, P e)
    (hsrc : ∀ ps : Bool, P (.declareExchange p.source.name p.source.type.value true ps))
    (hdst : ∀ ps : Bool, P (.declareExchange p.dest.name p.dest.type.value true ps))
    (hb : P (.bindExchange p.source.name p.dest.name "#"))
    (hr : P .reopenChannel) :
    ∀ e ∈ s'.events, P e := by
  simp only [ExchangePair.setup] at h
  have key : ∀ (r0 : Except PyErr Unit) (s1 : MState),
      (match setup_exchange p.source s with
        | (.error e, s) => ((.error e : Except PyErr Unit), s)
        | (.ok _, s) =>
          match setup_exchange p.dest s with
          | (.error e, s) => (.error e, s)
          | (.ok _, s) => create_binding p s) = (r0, s1) →
      ∀ e ∈ s1.events, P e := by
    intro r0 s1 heq
    split at heq
    case _ e1 s2 heq2 =>
      injection heq with ha hb2
      subst hb2
      exact setup_exchange_all _ _ _ _ heq2 P h0 hsrc hr
    case _ u s2 heq2 =>
      have hs2 : ∀ e ∈ s2.events, P e :=
        setup_exchange_all _ _ _ _ heq2 P h0 hsrc hr
      split at heq
      case _ e2 s3 heq3 =>
        injection heq with ha hb2
        subst hb2
        exact setup_exchange_all _ _ _ _ heq3 P hs2 hdst hr
      case _ u2 s3 heq3 =>
        have hs3 : ∀ e ∈ s3.events, P e :=
          setup_exchange_all _ _ _ _ heq3 P hs2 hdst hr
        exact create_binding_all _ _ _ _ heq P hs3 hb hr
  split at h
  case _ u s1 heq =>
    injection h with ha hb2
    subst hb2
    exact key _ _ heq
  case _ e1 s1 heq =>
    injection h with ha hb2
    subst hb2
    exact key _ _ heq

theorem ensureExchangePair_snd (name : String) (s : MState) :
    (ensureExchangePair name s).2 = ((FanoutTopicPair.make name).setup s).2 := by
  simp only [ensureExchangePair]
  rcases h : (FanoutTopicPair.make name).setup s with ⟨r, s'⟩
  cases r <;> rfl

theorem tq_verify_create_all (topic : String) (s : MState)
    (r : Except PyErr Unit) (s' : MState)
    (h : tq_verify_create topic s = (r, s'))
    (P : Event → Prop)
    (h0 : ∀ e ∈ s.events, P e)
    (h1 : ∀ ps : Bool, P (.declareExchange topic "topic" true ps))
    (h2 : P .reopenChannel) :
    ∀ e ∈ s'.events, P e := by
  unfold tq_verify_create at h
  split at h
  case _ e1 s1 heq =>
    injection h with ha hb
    subst hb
    exact verify_exchange_all _ _ _ _ _ heq P h0 (h1 true) h2
  case _ ex actual s1 heq =>
    have hs1 : ∀ e ∈ s1.events, P e :=
      verify_exchange_all _ _ _ _ _ heq P h0 (h1 true) h2
    split at h
    · injection h with ha hb
      subst hb
      exact hs1
    · split at h <;>
      · injection h with ha hb
        subst hb
        rename_i heq2
        have hev := exchange_declare_events topic "topic" true false s1 _ _ heq2
        intro e he
        rw [hev] at he
        rcases List.mem_append.mp he with hm | hm
        · exact hs1 e hm
        · simpa using (by simpa using hm) ▸ h1 false

theorem tq_ensure_queue_all (qn : String) (s : MState)
    (r : Except PyErr Unit) (s' : MState)
    (h : tq_ensure_queue qn s = (r, s'))
    (P : Event → Prop)
    (h0 : ∀ e ∈ s.events, P e)
    (h1 : ∀ ps : Bool, P (.declareQueue qn true ps))
    (h2 : P .reopenChannel) :
    ∀ e ∈ s'.events, P e := by
  unfold tq_ensure_queue at h
  split at h
  case _ u s1 heq =>
    injection h with ha hb
    subst hb
    have hev := queue_declare_events qn true true s _ _ heq
    intro e he
    rw [hev] at he
    rcases List.mem_append.mp he with hm | hm
    · exact h0 e hm
    · simpa using (by simpa using hm) ▸ h1 true
  case _ reply s1 heq =>
    have hev := queue_declare_events qn true true s _ _ heq
    have hs1 : ∀ e ∈ s1.events, P e := by
      intro e he
      rw [hev] at he
      rcases List.mem_append.mp he with hm | hm
      · exact h0 e hm
      · simpa using (by simpa using hm) ▸ h1 true
    have hs2 : ∀ e ∈ (ensure_channel s1).events, P e := by
      intro e he
      rcases ensure_channel_events s1 with hc | hc <;> rw [hc] at he
      · exact hs1 e he
      · rcases List.mem_append.mp he with hm | hm
        · exact hs1 e hm
        · simpa using (by simpa using hm) ▸ h2
    split at h <;>
    · injection h with ha hb
      subst hb
      rename_i heq2
      have hev2 := queue_declare_events qn true false (ensure_channel s1) _ _ heq2
      intro e he
      rw [hev2] at he
      rcases List.mem_append.mp he with hm | hm
      · exact hs2 e hm
      · simpa using (by simpa using hm) ▸ h1 false
  case _ e1 s1 hne heq =>
    injection h with ha hb
    subst hb
    have hev := queue_declare_events qn true true s _ _ heq
    intro e he
    rw [hev] at he
    rcases List.mem_append.mp he with hm | hm
    · exact h0 e hm
    · simpa using (by simpa using hm) ▸ h1 true

theorem tq_bind_queue_all (qn topic rk : String) (s : MState)
    (r : Except PyErr Unit) (s' : MState)
    (h : tq_bind_queue qn topic rk s = (r, s'))
    (P : Event → Prop)
    (h0 : ∀ e ∈ s.events, P e)
    (h1 : P (.bindQueue qn topic rk))
    (h2 : P .reopenChannel) :
    ∀ e ∈ s'.events, P e := by
  unfold tq_bind_queue at h
  split at h
  case _ u s1 heq =>
    injection h with ha hb
    subst hb
    have hev := queue_bind_events qn topic rk s _ _ heq
    intro e he
    rw [hev] at he
    rcases List.mem_append.mp he with hm | hm
    · exact h0 e hm
    · simpa using (by simpa using hm) ▸ h1
  case _ reply s1 heq =>
    injection h with ha hb
    subst hb
    have hev := queue_bind_events qn topic rk s _ _ heq
    intro e he
    rcases ensure_channel_events s1 with hc | hc <;> rw [hc] at he
    · rw [hev] at he
      rcases List.mem_append.mp he with hm | hm
      · exact h0 e hm
      · simpa using (by simpa using hm) ▸ h1
    · rw [hev] at he
      rcases List.mem_append.mp he with hm | hm
      · rcases List.mem_append.mp hm with hm2 | hm2
        · exact h0 e hm2
        · simpa using (by simpa using hm2) ▸ h1
      · simpa using (by simpa using hm) ▸ h2
  case _ e1 s1 hne heq =>
    injection h with ha hb
    subst hb
    have hev := queue_bind_events qn topic rk s _ _ heq
    intro e he
    rw [hev] at he
    rcases List.mem_append.mp he with hm | hm
    · exact h0 e hm
    · simpa using (by simpa using hm) ▸ h1

theorem tq_setup_all (tq : TopicQueuePair) (s : MState)
    (r : Except PyErr Unit) (s' : MState)
    (h : tq.setup s = (r, s'))
    (P : Event → Prop)
    (h0 : ∀ e ∈ s.events, P e)
    (hx : ∀ ps : Bool, P (.declareExchange tq.topic "topic" true ps))
    (hq : ∀ ps : Bool, P (.declareQueue tq.queue true ps))
    (hb : P (.bindQueue tq.queue tq.topic tq.routing_key))
    (hr : P .reopenChannel) :
    ∀ e ∈ s'.events, P e := by
  simp only [TopicQueuePair.setup] at h
  have key : ∀ (r0 : Except PyErr Unit) (s1 : MState),
      (match
        (match tq_verify_create tq.topic s with
          | (.error e, s) => ((.error e : Except PyErr Unit), s)
          | (.ok _, s) => tq_ensure_queue tq.queue s) with
        | (.error e, s) => ((.error e : Except PyErr Unit), s)
        | (.ok _, s) => tq_bind_queue tq.queue tq.topic tq.routing_key s) = (r0, s1) →
      ∀ e ∈ s1.events, P e := by
    intro r0 s1 heq
    split at heq
    case _ e2 s2 heq2 =>
      injection heq with ha hb2
      subst hb2
      split at heq2
      case _ e3 s3 heq3 =>
        injection heq2 with ha2 hb3
        subst hb3
        exact tq_verify_create_all _ _ _ _ heq3 P h0 hx hr
      case _ u3 s3 heq3 =>
        have hs3 : ∀ e ∈ s3.events, P e :=
          tq_verify_create_all _ _ _ _ heq3 P h0 hx hr
        exact tq_ensure_queue_all _ _ _ _ heq2 P hs3 hq hr
    case _ u2 s2 heq2 =>
      have hs2 : ∀ e ∈ s2.events, P e := by
        split at heq2
        case _ e3 s3 heq3 =>
          injection heq2 with ha2 hb3
          subst hb3
          exact tq_verify_create_all _ _ _ _ heq3 P h0 hx hr
        case _ u3 s3 heq3 =>
          have hs3 : ∀ e ∈ s3.events, P e :=
            tq_verify_create_all _ _ _ _ heq3 P h0 hx hr
          exact tq_ensure_queue_all _ _ _ _ heq2 P hs3 hq hr
      exact tq_bind_queue_all _ _ _ _ _ _ heq P hs2 hb hr
  split at h
  case _ u s1 heq =>
    injection h with ha hb2
    subst hb2
    exact key _ _ heq
  case _ e1 s1 heq =>
    injection h with ha hb2
    subst hb2
    exact key _ _ heq

/-- C7: for every pair name, the source exchange is exactly the pair name
followed by ".fanout" with kind FANOUT and durable true, the destination is
the pair name followed by ".topic" with kind TOPIC and durable true, and
every exchange-to-exchange binding operation ever issued by
ensureExchangePair binds that fanout to that topic with routing key "#". -/
theorem exchange_pair_naming (B : Broker) (name : String) :
    (FanoutTopicPair.make name).source =
      { name := name ++ ".fanout", type := .fanout, durable := true } ∧
    (FanoutTopicPair.make name).dest =
      { name := name ++ ".topic", type := .topic, durable := true } ∧
    ∀ e ∈ (ensureExchangePair name (initState B)).2.events,
      ∀ src dst k, e = .bindExchange src dst k →
        src = name ++ ".fanout" ∧ dst = name ++ ".topic" ∧ k = "#" := by
  refine ⟨rfl, rfl, ?_⟩
  rw [ensureExchangePair_snd]
  exact pair_setup_all (FanoutTopicPair.make name) (initState B) _ _ rfl
    (fun e => ∀ src dst k, e = .bindExchange src dst k →
      src = name ++ ".fanout" ∧ dst = name ++ ".topic" ∧ k = "#")
    (by simp [initState])
    (fun ps => by intro src dst k hk; simp at hk)
    (fun ps => by intro src dst k hk; simp at hk)
    (by intro src dst k hk; injection hk with a b c; exact ⟨a.symm, b.symm, c.symm⟩)
    (by intro src dst k hk; simp at hk)

/-- C7 witness: instantiation at name "x" from the empty broker, at the
binding event the run actually emits. -/
theorem exchange_pair_naming_witness :
    (FanoutTopicPair.make "x").source =
      { name := "x" ++ ".fanout", type := .fanout, durable := true } ∧
    ("x" ++ ".fanout" = "x" ++ ".fanout" ∧ "x" ++ ".topic" = "x" ++ ".topic" ∧
     ("#" : String) = "#") :=
  ⟨(exchange_pair_naming {} "x").1,
   (exchange_pair_naming {} "x").2.2
     (.bindExchange ("x" ++ ".fanout") ("x" ++ ".topic") "#") (by decide)
     ("x" ++ ".fanout") ("x" ++ ".topic") "#" rfl⟩

/-- C8: every exchange declaration and every queue declaration issued by
ExchangePair.setup or TopicQueuePair.setup — passive checks and real
creations alike, under any broker state and any fault schedule — passes
durable := true. -/
theorem declarations_durable (B : Broker) (name qn rk : String)
    (fs : List (Option PikaErr)) :
    (∀ e ∈ ((FanoutTopicPair.make name).setup
        { broker := B, faults := fs }).2.events, e.durableOk = true) ∧
    (∀ e ∈ ((TopicQueuePair.make name qn rk).setup
        { broker := B, faults := fs }).2.events, e.durableOk = true) := by
  constructor
  · exact pair_setup_all _ _ _ _ rfl (fun e => e.durableOk = true)
      (by simp) (fun ps => rfl) (fun ps => rfl) rfl rfl
  · exact tq_setup_all _ _ _ _ rfl (fun e => e.durableOk = true)
      (by simp) (fun ps => rfl) (fun ps => rfl) rfl rfl

/-- C8 witness: the first declaration the pair setup for "x" issues on an
empty broker carries durable := true. -/
theorem declarations_durable_witness :
    Event.durableOk (.declareExchange ("x" ++ ".fanout") "fanout" true true) = true :=
  (declarations_durable {} "x" "q" "" []).1
    (.declareExchange ("x" ++ ".fanout") "fanout" true true) (by decide)

/-- C4: for every delivered message, the per-message handler acknowledges the
original delivery by its tag exactly once — the acknowledgment actions in
the handler's action list are exactly [ack tag] — regardless of the
ProcessResult, of whether output exchanges exist, and of whether the publish
fails. -/
theorem handler_acks_exactly_once (out : StageOutputs) (publishFails : Bool)
    (res : ProcessResult) (tag : Nat) :
    (handleDelivery out publishFails res tag).filter HandlerAction.isAck =
      [.ack tag] := by
  simp only [handleDelivery]
  repeat' split
  all_goals simp [HandlerAction.isAck, List.filter_append]

theorem default_names_decodification (n : String) :
    default_names n "decodification" =
      ⟨n ++ ".raw.fanout", n ++ ".raw.topic", n ++ ".decodification.queue"⟩ := rfl

theorem default_names_validation (n : String) :
    default_names n "validation" =
      ⟨n ++ ".decoded.fanout", n ++ ".decoded.topic", n ++ ".validation.queue"⟩ := rfl

theorem default_names_processing (n : String) :
    default_names n "processing" =
      ⟨n ++ ".validated.fanout", n ++ ".validated.topic", n ++ ".processing.queue"⟩ := rfl

/-- C9: a fatal error raised inside start_consuming makes RabbitFlow.run log
it, close the broker connection and re-raise it; a keyboard interrupt makes
it perform the same graceful close without re-raising. -/
theorem run_close_and_reraise (m : String) :
    RabbitFlow.run true true (.fatal m) =
      ([.startConsuming, .logFatal m, .closeConnection], false, some m) ∧
    RabbitFlow.run true true .interrupted =
      ([.startConsuming, .logShutdownSignal, .closeConnection,
        .logShutdownCompleted], false, none) :=
  ⟨rfl, rfl⟩

/-- C10: register_decoder provisions the validation stage's exchange pair in
addition to the decoder's own topology; register_validator provisions the
processing stage's exchange pair; register_processor provisions no exchange
pair at all — under any name overrides. -/
theorem register_downstream_provisioning (app : String) (f t q : Option String) :
    Provision.exchangePairOf (app ++ ".decoded.fanout") (app ++ ".decoded.topic") ∈
      register_decoder app f t q ∧
    Provision.exchangePairOf (app ++ ".validated.fanout") (app ++ ".validated.topic") ∈
      register_validator app f t q ∧
    ∀ p ∈ register_processor app q t, p.isPairSetup = false := by
  refine ⟨?_, ?_, ?_⟩
  · simp [register_decoder, default_names_validation]
  · simp [register_validator, default_names_processing]
  · intro p hp
    simp only [register_processor] at hp
    split at hp <;> simp_all [Provision.isPairSetup]

/-- C10 witness: instantiation at application name "a" with default names; the
processor registration's only provisioning request is a queue binding, not a
pair. -/
theorem register_downstream_provisioning_witness :
    (Provision.exchangePairOf ("a" ++ ".decoded.fanout") ("a" ++ ".decoded.topic") ∈
      register_decoder "a" none none none) ∧
    Provision.isPairSetup
      (.queueBindingOf ("a" ++ ".validated.topic") ("a" ++ ".processing.queue")) = false :=
  ⟨(register_downstream_provisioning "a" none none none).1,
   (register_downstream_provisioning "a" none none none).2.2
     (.queueBindingOf ("a" ++ ".validated.topic") ("a" ++ ".processing.queue"))
     (by decide)⟩
